import Mathlib

/-!
Shallow embedding of the MediaHub authentication/session subsystem.

Sources embedded here:
- backend/utils/jwt.ts (concatenated into src/backend/utils/helpers.ts):
  module-load JWT_SECRET check, generateToken, verifyToken
- backend/dtos/user.dto.ts (src/unnamed/part_009): CreateUserDTO, LoginUserDTO
- backend/services/user.service.ts (src/unnamed/part_000): userService.createUser,
  userService.loginUser
- backend/controllers/user.controller.ts (src/unnamed/part_018): loginUser
  controller, refresh endpoint
- backend/middleware/auth.middleware.ts (src/unnamed/part_021): verifyAccessToken
- frontend/src/lib/api/axios.ts: response interceptor (retry-once logic)

Modelling conventions:
- Times are Nat seconds; the jsonwebtoken durations 1h and 15m are 3600 and 900.
- A signed JWT is a structure carrying its payload, the secret string it was
  signed with, and iat/exp; signature verification is equality of the secret.
- Where the code manipulates token strings (the Authorization header), tokens
  stay Lean Strings and a decode oracle (String to Option Jwt) stands for the
  JWT codec plus signature check; elsewhere tokens flow as values.
- process.env is a structure of Option String fields; a JS value that may not
  be a string is modelled by the JsVal inductive.
- A thrown JS exception is an Except.error carrying the message.
-/

namespace MediaHub

/-- The payload shapes this codebase puts into JWTs: some subset of
sub, email, id. A field the code did not set is none. -/
structure JwtPayload where
  sub : Option String
  email : Option String
  id : Option Nat
deriving Repr, DecidableEq

/-- A signed JWT as a value: payload, the secret string used to sign it,
issued-at and expiry instants (seconds). -/
structure Jwt where
  payload : JwtPayload
  key : String
  iat : Nat
  exp : Nat
deriving Repr, DecidableEq

/-- A token-shaped value arriving from outside (for example a cookie):
either an actual signed JWT or a tampered/garbage string. -/
inductive TokenStr
  | jwt (j : Jwt)
  | garbage (s : String)
deriving Repr, DecidableEq

/-- jsonwebtoken sign: throws when the secret is undefined, otherwise
produces a token with exp = now + duration. -/
def jwtSign (payload : JwtPayload) (secret : Option String) (now dur : Nat) :
    Except String Jwt :=
  match secret with
  | none => .error "secretOrPrivateKey must have a value"
  | some s => .ok ⟨payload, s, now, now + dur⟩

/-- jsonwebtoken verify on a token value at instant now: throws when the
secret is undefined, on a garbage token, on a signature mismatch, or when
now has reached exp (jsonwebtoken rejects once clock >= exp). -/
def jwtVerify (tok : TokenStr) (secret : Option String) (now : Nat) :
    Except String JwtPayload :=
  match secret with
  | none => .error "secret or public key must be provided"
  | some s =>
    match tok with
    | .garbage _ => .error "jwt malformed"
    | .jwt j =>
      if j.key = s then
        if j.exp ≤ now then .error "jwt expired" else .ok j.payload
      else .error "invalid signature"

/-- jsonwebtoken verify on a token string: the decode oracle stands for the
JWT codec plus signature recovery (decode t = some j means the string t is
the encoding of the signed token j). -/
def jwtVerifyStr (decode : String → Option Jwt) (tok : String)
    (secret : Option String) (now : Nat) : Except String JwtPayload :=
  match secret with
  | none => .error "secret or public key must be provided"
  | some s =>
    match decode tok with
    | none => .error "jwt malformed"
    | some j =>
      if j.key = s then
        if j.exp ≤ now then .error "jwt expired" else .ok j.payload
      else .error "invalid signature"

/-- The process environment variables this subsystem reads. -/
structure ProcessEnv where
  JWT_SECRET : Option String
  ACCESS_TOKEN_SECRET : Option String
  REFRESH_TOKEN_SECRET : Option String
deriving Repr, DecidableEq

/-- Module load of utils/jwt.ts: reads process.env.JWT_SECRET and throws when
it is falsy (undefined or the empty string). The other two secrets are not
read, hence not checked, at startup; this is the only startup secret check
in the codebase. -/
def jwtModuleInit (env : ProcessEnv) : Except String String :=
  match env.JWT_SECRET with
  | none => .error "JWT_SECRET is not defined in .env file."
  | some s =>
    if s = "" then .error "JWT_SECRET is not defined in .env file." else .ok s

/-- generateToken from utils/jwt.ts: signs the payload with the module-level
JWT_SECRET (already validated non-falsy at module load) and a hardcoded
expiresIn of 1h. -/
def generateToken (jwtSecret : String) (payload : JwtPayload) (now : Nat) :
    Jwt :=
  ⟨payload, jwtSecret, now, now + 3600⟩

/-- verifyToken from utils/jwt.ts: jwt.verify with JWT_SECRET, remapping any
failure to the single message used by the source. -/
def verifyToken (jwtSecret : String) (tok : TokenStr) (now : Nat) :
    Except String JwtPayload :=
  match jwtVerify tok (some jwtSecret) now with
  | .ok p => .ok p
  | .error _ => .error "Invalid or expired token."

/-- c is a prefix of d, character by character. -/
def listPrefixEq : List Char → List Char → Bool
  | [], _ => true
  | _ :: _, [] => false
  | c :: cs, d :: ds => c == d && listPrefixEq cs ds

/-- Split a character list on every occurrence of sep (JS split keeps
empty segments). -/
def splitChar (sep : Char) : List Char → List (List Char)
  | [] => [[]]
  | c :: cs =>
    match splitChar sep cs with
    | [] => [[]]
    | w :: ws => if c == sep then [] :: w :: ws else (c :: w) :: ws

/-- JS String.prototype.trim: strip leading and trailing whitespace.
Implemented over the character list so that proofs can evaluate it. -/
def jsTrim (s : String) : String :=
  String.mk (((s.data.dropWhile Char.isWhitespace).reverse.dropWhile
    Char.isWhitespace).reverse)

/-- JS String.prototype.toLowerCase for the ASCII range this code uses. -/
def jsToLower (s : String) : String :=
  String.mk (s.data.map Char.toLower)

/-- JS String.prototype.startsWith. -/
def jsStartsWith (s pre : String) : Bool :=
  listPrefixEq pre.data s.data

/-- JS String.prototype.split with a single-space separator. -/
def jsSplitSpace (s : String) : List String :=
  (splitChar ' ' s.data).map String.mk

/-- A JavaScript value as seen by the DTO constructors: a string, the
undefined value (which triggers destructuring defaults), or any other
non-string value. -/
inductive JsVal
  | str (s : String)
  | undef
  | otherVal
deriving Repr, DecidableEq

/-- The typeof v === string && v.trim().length > 0 test the DTOs use. -/
def JsVal.isNonEmptyStr : JsVal → Bool
  | .str s => (jsTrim s).length != 0
  | _ => false

/-- One character of the name whitelist a-zA-Z0-9, whitespace, apostrophe,
hyphen (the \s class is modelled by Char.isWhitespace). -/
def isNameChar (c : Char) : Bool :=
  c.isAlphanum || c.isWhitespace || c = '-' || c = '\''

/-- The regex test on the trimmed name: one or more whitelisted chars. -/
def validNameRegex (s : String) : Bool :=
  s.length > 0 && s.toList.all isNameChar

/-- provider.trim().toLowerCase() is one of local, google, github. -/
def providerAllowed (pr : String) : Bool :=
  jsToLower (jsTrim pr) = "local" || jsToLower (jsTrim pr) = "google" ||
    jsToLower (jsTrim pr) = "github"

/-- Raw body of POST /api/auth/login. -/
structure LoginBody where
  email : JsVal
  password : JsVal
  provider : JsVal
deriving Repr, DecidableEq

/-- LoginUserDTO after successful construction: email lowercased and
trimmed, password trimmed, provider lowercased and trimmed. -/
structure LoginUserDTO where
  email : String
  password : String
  provider : String
deriving Repr, DecidableEq

/-- The LoginUserDTO constructor from user.dto.ts: validation checks in
source order; a thrown Error (or TypeError from calling trim on a
non-string password during assignment) is an Except.error. -/
def LoginUserDTO.build (b : LoginBody) : Except String LoginUserDTO :=
  match b.email with
  | .str e =>
    if (jsTrim e).length = 0 then
      .error "email field must be a non-empty string." else
    match b.provider with
    | .str pr =>
      if (jsTrim pr).length = 0 then
        .error "provider field must be a non-empty string." else
      if ¬ providerAllowed pr then
        .error "provider field must be local, google, or github." else
      -- the local-password guard compares the RAW provider to local
      match b.password with
      | .str p =>
        if pr = "local" ∧ (jsTrim p).length = 0 then
          .error "provider is local; password must be a non-empty string."
        else .ok ⟨jsToLower (jsTrim e), jsTrim p, jsToLower (jsTrim pr)⟩
      | _ =>
        if pr = "local" then
          .error "provider is local; password must be a non-empty string."
        else .error "TypeError: password.trim is not a function"
    | _ => .error "provider field must be a non-empty string."
  | _ => .error "email field must be a non-empty string."

/-- Raw body of POST /api/auth/register. -/
structure CreateBody where
  email : JsVal
  name : JsVal
  password : JsVal
  provider : JsVal
  provider_id : JsVal
deriving Repr, DecidableEq

/-- CreateUserDTO after successful construction: email lowercased and
trimmed, name trimmed; password and provider_id are assigned raw (the
constructor never trims them). -/
structure CreateUserDTO where
  email : String
  name : String
  password : JsVal
  provider : String
  provider_id : JsVal
deriving Repr, DecidableEq

/-- The CreateUserDTO constructor from user.dto.ts: destructuring defaults
for password and provider_id, then the validation checks in source order. -/
def CreateUserDTO.build (b : CreateBody) : Except String CreateUserDTO :=
  let password := match b.password with | .undef => JsVal.str "" | v => v
  let provider_id := match b.provider_id with | .undef => JsVal.str "" | v => v
  match b.email with
  | .str e =>
    if (jsTrim e).length = 0 then
      .error "email field must be a non-empty string." else
    match b.provider with
    | .str pr =>
      if (jsTrim pr).length = 0 then
        .error "provider field must be a non-empty string." else
      match b.name with
      | .str nm =>
        if (jsTrim nm).length = 0 then
          .error "name field must be a non-empty string." else
        if ¬ validNameRegex (jsTrim nm) ∨ (jsTrim nm).length < 2 then
          .error "name must be at least 2 characters long." else
        if ¬ providerAllowed pr then
          .error "provider must be local, google, or github." else
        if pr = "local" ∧ ¬ password.isNonEmptyStr then
          .error "provider is local; password must be a non-empty string."
        else .ok ⟨jsToLower (jsTrim e), jsTrim nm, password,
                  jsToLower (jsTrim pr), provider_id⟩
      | _ => .error "name field must be a non-empty string."
    | _ => .error "provider field must be a non-empty string."
  | _ => .error "email field must be a non-empty string."

/-- CreateUserDTO.hashPassword: replaces the password with its bcrypt hash
(bcHash stands for bcrypt.hash with the fixed 10 salt rounds; the source
hashes this.password or the empty string when falsy). -/
def CreateUserDTO.hashPassword (bcHash : String → String)
    (dto : CreateUserDTO) : CreateUserDTO :=
  let plain := match dto.password with | .str s => s | _ => ""
  { dto with password := .str (bcHash plain) }

/-- A row of the users table. -/
structure IUser where
  id : Nat
  email : String
  name : String
  password_hash : Option String
  provider : String
  provider_id : Option String
deriving Repr, DecidableEq

/-- Result of userService.loginUser: the returned user and token, or a
thrown Error carrying a message. -/
inductive LoginSvcResult
  | ok (user : IUser) (token : Jwt)
  | err (msg : String)
deriving Repr, DecidableEq

/-- userService.loginUser from user.service.ts. bcCompare stands for
bcrypt.compare. The SELECT by email is a filter over the table; exactly
one row proceeds, zero or several throw. A falsy stored hash (absent or
empty) throws. The token is generateToken on email and id. -/
def userService.loginUser (bcCompare : String → String → Bool)
    (jwtSecret : String) (db : List IUser) (dto : LoginUserDTO) (now : Nat) :
    LoginSvcResult :=
  let rows := db.filter (fun u => u.email = dto.email)
  match rows with
  | [u] =>
    match u.password_hash with
    | none => .err "User does not have a password hash."
    | some h =>
      if h = "" then .err "User does not have a password hash."
      else if bcCompare dto.password h then
        .ok u (generateToken jwtSecret ⟨none, some u.email, some u.id⟩ now)
      else .err "Invalid password."
  | [] => .err ("User with email = " ++ dto.email ++ " not found")
  | _ => .err ("Error: More than 1 user has email = " ++ dto.email)

/-- userService.createUser from user.service.ts: INSERT RETURNING the new
row (id assigned by the database), then generateToken on the stored email
and id. Returns the (user, token) pair and the updated table. -/
def userService.createUser (jwtSecret : String) (db : List IUser)
    (dto : CreateUserDTO) (newId : Nat) (now : Nat) :
    (IUser × Jwt) × List IUser :=
  let pwHash : Option String :=
    match dto.password with | .str s => some s | _ => none
  let pid : Option String :=
    match dto.provider_id with | .str s => some s | _ => none
  let u : IUser := ⟨newId, dto.email, dto.name, pwHash, dto.provider, pid⟩
  ((u, generateToken jwtSecret ⟨none, some u.email, some u.id⟩ now),
   db ++ [u])

/-- Response of the login controller: HTTP status, the access token in the
body, and the refresh token cookie when one was set. -/
structure LoginResp where
  status : Nat
  token : Option Jwt
  setCookieRt : Option Jwt
deriving Repr, DecidableEq

/-- The loginUser controller from user.controller.ts: DTO construction
failure responds 400; a throw from the service (unknown email, bad
password, missing hash, duplicates) lands in the catch and responds 500;
on service success a refresh token signed with REFRESH_TOKEN_SECRET and
expiresIn 1h is set as the rt cookie and the response is 200. The
result-instanceof-Error 401 branch of the source is unreachable because
the service throws on failure instead of returning an Error value. -/
def loginUserController (bcCompare : String → String → Bool)
    (env : ProcessEnv) (jwtSecret : String) (db : List IUser)
    (body : LoginBody) (now : Nat) : LoginResp :=
  match LoginUserDTO.build body with
  | .error _ => ⟨400, none, none⟩
  | .ok dto =>
    match userService.loginUser bcCompare jwtSecret db dto now with
    | .err _ => ⟨500, none, none⟩
    | .ok u tok =>
      match jwtSign ⟨some (toString u.id), none, none⟩
          env.REFRESH_TOKEN_SECRET now 3600 with
      | .error _ => ⟨500, none, none⟩
      | .ok rt => ⟨200, some tok, some rt⟩

/-- Response of GET /api/auth/refresh. -/
structure RefreshResp where
  status : Nat
  message : Option String
  accessToken : Option Jwt
deriving Repr, DecidableEq

/-- The refresh handler from user.controller.ts: missing rt cookie is 401;
the cookie is verified against REFRESH_TOKEN_SECRET and any throw in the
try (bad signature, expiry, absent secret) is the generic 401; on success
a new access token with payload sub only is signed with
ACCESS_TOKEN_SECRET and expiresIn 15m, returned with the default 200. -/
def refresh (env : ProcessEnv) (cookieRt : Option TokenStr) (now : Nat) :
    RefreshResp :=
  match cookieRt with
  | none => ⟨401, some "Missing refresh token", none⟩
  | some rt =>
    match jwtVerify rt env.REFRESH_TOKEN_SECRET now with
    | .error _ => ⟨401, some "Invalid or expired refresh token", none⟩
    | .ok payload =>
      match jwtSign ⟨payload.sub, none, none⟩
          env.ACCESS_TOKEN_SECRET now 900 with
      | .error _ => ⟨401, some "Invalid or expired refresh token", none⟩
      | .ok newAccessToken => ⟨200, none, some newAccessToken⟩

/-- What the SessionGate middleware did with a request: responded with a
status and message, or attached the decoded principal and called next. -/
inductive GateOutcome
  | resp (status : Nat) (message : String)
  | proceed (principal : JwtPayload)
deriving Repr, DecidableEq

/-- Gate outcome plus whether jwt.verify was ever invoked. -/
structure GateResult where
  outcome : GateOutcome
  verifyCalled : Bool
deriving Repr, DecidableEq

/-- verifyAccessToken from auth.middleware.ts: absent or non-Bearer
Authorization header responds 401 before any verification; otherwise the
second space-separated word is verified against ACCESS_TOKEN_SECRET,
responding 403 on failure and attaching the decoded payload on success. -/
def verifyAccessToken (decode : String → Option Jwt) (env : ProcessEnv)
    (authHeader : Option String) (now : Nat) : GateResult :=
  match authHeader with
  | none => ⟨.resp 401 "Access token missing or invalid", false⟩
  | some h =>
    if jsStartsWith h "Bearer " then
      let token := (jsSplitSpace h).getD 1 ""
      match jwtVerifyStr decode token env.ACCESS_TOKEN_SECRET now with
      | .error _ => ⟨.resp 403 "Invalid or expired token", true⟩
      | .ok decoded => ⟨.proceed decoded, true⟩
    else ⟨.resp 401 "Access token missing or invalid", false⟩

/-- Client-observable side effects of one pass through the response
interceptor chain. -/
inductive ClientEvent
  | refreshCall
  | resubmit
deriving Repr, DecidableEq

/-- An axios request config as the interceptor sees it: the retry marker
written on first 401 handling, and the Authorization header. -/
structure AxiosReq where
  retry : Bool
  auth : Option String
deriving Repr, DecidableEq

/-- Outcome of the awaited GET /api/auth/refresh call made by the
interceptor: the promise rejected (carrying the failing status), resolved
without an accessToken or token field, or resolved with a token. -/
inductive RefreshOutcome
  | rejected (status : Nat)
  | okNoToken
  | okToken (t : String)
deriving Repr, DecidableEq

/-- Browser-side state the interceptor mutates: the two localStorage keys
and window.location.pathname. -/
structure ClientState where
  token : Option String
  user : Option String
  path : String
deriving Repr, DecidableEq

/-- How the promise returned to the original caller settles. -/
inductive Settle
  | success (status : Nat)
  | failure (status : Nat)
deriving Repr, DecidableEq

/-- Result of running one logical request through the interceptor chain. -/
structure RunResult where
  settle : Settle
  events : List ClientEvent
  state : ClientState
deriving Repr, DecidableEq

/-- The response interceptor of axios.ts, run for one logical request.
server gives the HTTP status the backend answers for a submission (axios
resolves for 2xx and rejects otherwise); refreshResp is the settled
outcome of the single GET /api/auth/refresh the handler may await. On a
401 whose config is not yet marked retried the handler marks it, calls
refresh once, and on a returned token stores it, rewrites the
Authorization header and resubmits the original config once (which
re-enters this same chain with the retry marker set); if the refresh
promise rejects it removes the stored token and propagates the refresh
error; if refresh resolves without a token it clears token and user and
navigates to /login unless already there. Any other error, and a 401 on
an already-retried config, is propagated unchanged. -/
def runRequest (server : AxiosReq → Nat) (refreshResp : RefreshOutcome)
    (st : ClientState) (req : AxiosReq) : RunResult :=
  let status := server req
  if 200 ≤ status ∧ status < 300 then
    ⟨.success status, [], st⟩
  else if h : status = 401 ∧ req.retry = false then
    match refreshResp with
    | .rejected rs =>
      ⟨.failure rs, [.refreshCall], { st with token := none }⟩
    | .okToken t =>
      let st1 := { st with token := some t }
      let req1 : AxiosReq := { retry := true, auth := some ("Bearer " ++ t) }
      let rest := runRequest server refreshResp st1 req1
      ⟨rest.settle, .refreshCall :: .resubmit :: rest.events, rest.state⟩
    | .okNoToken =>
      if st.path ≠ "/login" then
        ⟨.failure status, [.refreshCall],
         { token := none, user := none, path := "/login" }⟩
      else ⟨.failure status, [.refreshCall], st⟩
  else
    ⟨.failure status, [], st⟩
termination_by cond req.retry 0 1
decreasing_by simp [h.2]

/-- A request already marked retried never re-enters the refresh logic:
the interceptor settles it directly, with no events and no state change. -/
theorem runRequest_retried (server : AxiosReq → Nat) (rr : RefreshOutcome)
    (st : ClientState) (req : AxiosReq) (h : req.retry = true) :
    runRequest server rr st req =
      if 200 ≤ server req ∧ server req < 300 then
        ⟨.success (server req), [], st⟩
      else ⟨.failure (server req), [], st⟩ := by
  rw [runRequest.eq_def]
  simp [h]

/-- The interceptor produces one of three event traces: no side calls, a
single refresh call, or a single refresh call followed by a single
resubmission. -/
theorem runRequest_events (server : AxiosReq → Nat) (rr : RefreshOutcome)
    (st : ClientState) (req : AxiosReq) :
    (runRequest server rr st req).events = [] ∨
    (runRequest server rr st req).events = [.refreshCall] ∨
    (runRequest server rr st req).events = [.refreshCall, .resubmit] := by
  by_cases hr : req.retry = true
  · rw [runRequest_retried server rr st req hr]
    split <;> simp
  · simp only [Bool.not_eq_true] at hr
    rw [runRequest.eq_def]
    cases rr with
    | rejected rs =>
      dsimp only
      split
      · simp
      · split <;> simp
    | okNoToken =>
      dsimp only
      split
      · simp
      · split
        · split <;> simp
        · simp
    | okToken t =>
      dsimp only
      split
      · simp
      · split
        · rw [runRequest_retried server (.okToken t)
            { st with token := some t } ⟨true, some ("Bearer " ++ t)⟩ rfl]
          split <;> simp
        · simp

/-- Claim C3: for every request passing through the client response
interceptor, a 401 triggers at most one refresh call and at most one
resubmission of that request; a request already marked retried has its 401
propagated unchanged, with no second refresh attempt, so no request is
ever refreshed or resubmitted twice. -/
theorem C3_retry_once (server : AxiosReq → Nat) (rr : RefreshOutcome)
    (st : ClientState) (req : AxiosReq) :
    ((runRequest server rr st req).events.count .refreshCall ≤ 1 ∧
     (runRequest server rr st req).events.count .resubmit ≤ 1) ∧
    (req.retry = true → server req = 401 →
      runRequest server rr st req = ⟨.failure 401, [], st⟩) := by
  constructor
  · rcases runRequest_events server rr st req with h | h | h <;> rw [h] <;>
      exact ⟨by decide, by decide⟩
  · intro hr hs
    rw [runRequest_retried server rr st req hr, hs]
    norm_num

/-- Witness for C3_retry_once: a concrete already-retried request whose 401
is propagated unchanged with no refresh call. -/
theorem C3_retry_once_witness :
    runRequest (fun _ => 401) .okNoToken ⟨none, none, "/login"⟩
        ⟨true, none⟩ =
      ⟨.failure 401, [], ⟨none, none, "/login"⟩⟩ :=
  (C3_retry_once (fun _ => 401) .okNoToken ⟨none, none, "/login"⟩
    ⟨true, none⟩).2 rfl rfl

/-- Claim C9 (code bug): when the interceptor's single refresh attempt is
rejected, the catch block removes the stored token and propagates the
error; the hard-logout block that would navigate to /login is not reached,
so the client is NOT driven to the login entry point, contradicting the
interceptor's own comments. Here a request failing with 401 whose refresh
call rejects leaves the location at /dashboard while the token is cleared. -/
theorem C9_refresh_reject_clears_token_but_does_not_navigate :
    runRequest (fun _ => 401) (.rejected 401)
        ⟨some "tok", some "u", "/dashboard"⟩ ⟨false, some "Bearer tok"⟩ =
      ⟨.failure 401, [.refreshCall], ⟨none, some "u", "/dashboard"⟩⟩ := by
  rw [runRequest.eq_def]
  norm_num

/-- Claim C4: for every request to GET /refresh, a missing refresh cookie
or one failing verification against the refresh secret yields 401 with no
token issued; a verifying cookie yields (in a process whose access secret
is configured) a 200 carrying a newly minted access token whose subject
equals the refresh token's subject. -/
theorem C4_refresh_endpoint (env : ProcessEnv) (cookie : Option TokenStr)
    (now : Nat) :
    (cookie = none →
      refresh env cookie now = ⟨401, some "Missing refresh token", none⟩) ∧
    (∀ rt e, cookie = some rt →
      jwtVerify rt env.REFRESH_TOKEN_SECRET now = .error e →
      (refresh env cookie now).status = 401 ∧
      (refresh env cookie now).accessToken = none) ∧
    (∀ rt p s, cookie = some rt →
      jwtVerify rt env.REFRESH_TOKEN_SECRET now = .ok p →
      env.ACCESS_TOKEN_SECRET = some s →
      (refresh env cookie now).status = 200 ∧
      (refresh env cookie now).accessToken =
        some ⟨⟨p.sub, none, none⟩, s, now, now + 900⟩) := by
  refine ⟨?_, ?_, ?_⟩
  · intro hc; subst hc; rfl
  · intro rt e hc hv; subst hc
    simp [refresh, hv]
  · intro rt p s hc hv hs; subst hc
    simp [refresh, hv, hs, jwtSign]

/-- Witness for C4_refresh_endpoint: a missing cookie, a garbage cookie,
and a valid refresh cookie whose subject 7 is carried into the minted
access token. -/
theorem C4_refresh_endpoint_witness :
    (refresh ⟨some "js", some "as", some "rs"⟩ none 5 =
      ⟨401, some "Missing refresh token", none⟩) ∧
    ((refresh ⟨some "js", some "as", some "rs"⟩
        (some (.garbage "x")) 5).status = 401 ∧
     (refresh ⟨some "js", some "as", some "rs"⟩
        (some (.garbage "x")) 5).accessToken = none) ∧
    ((refresh ⟨some "js", some "as", some "rs"⟩
        (some (.jwt ⟨⟨some "7", none, none⟩, "rs", 0, 3600⟩)) 5).status =
          200 ∧
     (refresh ⟨some "js", some "as", some "rs"⟩
        (some (.jwt ⟨⟨some "7", none, none⟩, "rs", 0, 3600⟩)) 5).accessToken
       = some ⟨⟨some "7", none, none⟩, "as", 5, 5 + 900⟩) :=
  ⟨(C4_refresh_endpoint ⟨some "js", some "as", some "rs"⟩ none 5).1 rfl,
   (C4_refresh_endpoint ⟨some "js", some "as", some "rs"⟩
      (some (.garbage "x")) 5).2.1 (.garbage "x") "jwt malformed" rfl rfl,
   (C4_refresh_endpoint ⟨some "js", some "as", some "rs"⟩
      (some (.jwt ⟨⟨some "7", none, none⟩, "rs", 0, 3600⟩)) 5).2.2
      (.jwt ⟨⟨some "7", none, none⟩, "rs", 0, 3600⟩)
      ⟨some "7", none, none⟩ "as" rfl rfl rfl⟩

/-- Claim C7: verifying a freshly issued access token before its 1h expiry
returns exactly the payload that was signed; once the expiry has elapsed
verification of that same token fails with the Invalid or expired token
error. -/
theorem C7_round_trip_and_expiry (secret : String) (p : JwtPayload)
    (now t : Nat) :
    (t < now + 3600 →
      verifyToken secret (.jwt (generateToken secret p now)) t = .ok p) ∧
    (now + 3600 ≤ t →
      verifyToken secret (.jwt (generateToken secret p now)) t =
        .error "Invalid or expired token.") := by
  constructor
  · intro h
    simp [verifyToken, jwtVerify, generateToken, Nat.not_le.mpr h]
  · intro h
    simp [verifyToken, jwtVerify, generateToken, h]

/-- Witness for C7_round_trip_and_expiry: a token issued at 0 verifies at
instant 10 and fails at instant 3600. -/
theorem C7_round_trip_and_expiry_witness :
    verifyToken "s" (.jwt (generateToken "s" ⟨none, some "e", some 1⟩ 0)) 10
      = .ok ⟨none, some "e", some 1⟩ ∧
    verifyToken "s" (.jwt (generateToken "s" ⟨none, some "e", some 1⟩ 0))
      3600 = .error "Invalid or expired token." :=
  ⟨(C7_round_trip_and_expiry "s" ⟨none, some "e", some 1⟩ 0 10).1
     (by norm_num),
   (C7_round_trip_and_expiry "s" ⟨none, some "e", some 1⟩ 0 3600).2
     (by norm_num)⟩

/-- Claim C8: the SessionGate middleware rejects a missing or non-Bearer
Authorization header with 401 and performs no token verification or
downstream work; a bearer token failing verification is rejected 403 with
the invalid-or-expired message; a verifying bearer token has its decoded
principal attached and control passed onward. -/
theorem C8_session_gate (decode : String → Option Jwt) (env : ProcessEnv)
    (hdr : Option String) (now : Nat) :
    (hdr = none →
      verifyAccessToken decode env hdr now =
        ⟨.resp 401 "Access token missing or invalid", false⟩) ∧
    (∀ h, hdr = some h → jsStartsWith h "Bearer " = false →
      verifyAccessToken decode env hdr now =
        ⟨.resp 401 "Access token missing or invalid", false⟩) ∧
    (∀ h e, hdr = some h → jsStartsWith h "Bearer " = true →
      jwtVerifyStr decode ((jsSplitSpace h).getD 1 "")
          env.ACCESS_TOKEN_SECRET now = .error e →
      verifyAccessToken decode env hdr now =
        ⟨.resp 403 "Invalid or expired token", true⟩) ∧
    (∀ h p, hdr = some h → jsStartsWith h "Bearer " = true →
      jwtVerifyStr decode ((jsSplitSpace h).getD 1 "")
          env.ACCESS_TOKEN_SECRET now = .ok p →
      verifyAccessToken decode env hdr now = ⟨.proceed p, true⟩) := by
  refine ⟨?_, ?_, ?_, ?_⟩
  · intro hh; subst hh; rfl
  · intro h hh hb; subst hh
    simp [verifyAccessToken, hb]
  · intro h e hh hb hv; subst hh
    have hstep : verifyAccessToken decode env (some h) now =
        match jwtVerifyStr decode ((jsSplitSpace h).getD 1 "")
            env.ACCESS_TOKEN_SECRET now with
        | .error _ => ⟨.resp 403 "Invalid or expired token", true⟩
        | .ok decoded => ⟨.proceed decoded, true⟩ := by
      unfold verifyAccessToken
      dsimp only
      rw [hb]
      rfl
    rw [hstep, hv]
  · intro h p hh hb hv; subst hh
    have hstep : verifyAccessToken decode env (some h) now =
        match jwtVerifyStr decode ((jsSplitSpace h).getD 1 "")
            env.ACCESS_TOKEN_SECRET now with
        | .error _ => ⟨.resp 403 "Invalid or expired token", true⟩
        | .ok decoded => ⟨.proceed decoded, true⟩ := by
      unfold verifyAccessToken
      dsimp only
      rw [hb]
      rfl
    rw [hstep, hv]

/-- Witness for C8_session_gate: a missing header, a Basic header, a
Bearer header with an unverifiable token, and a Bearer header with a
verifying token, all at concrete inputs. -/
theorem C8_session_gate_witness :
    (verifyAccessToken (fun _ => none) ⟨some "js", some "as", some "rs"⟩
        none 5 = ⟨.resp 401 "Access token missing or invalid", false⟩) ∧
    (verifyAccessToken (fun _ => none) ⟨some "js", some "as", some "rs"⟩
        (some "Basic abc") 5 =
      ⟨.resp 401 "Access token missing or invalid", false⟩) ∧
    (verifyAccessToken (fun _ => none) ⟨some "js", some "as", some "rs"⟩
        (some "Bearer junk") 5 =
      ⟨.resp 403 "Invalid or expired token", true⟩) ∧
    (verifyAccessToken
        (fun s => if s = "good" then
          some ⟨⟨some "1", some "e", none⟩, "as", 0, 100⟩ else none)
        ⟨some "js", some "as", some "rs"⟩ (some "Bearer good") 5 =
      ⟨.proceed ⟨some "1", some "e", none⟩, true⟩) :=
  ⟨(C8_session_gate (fun _ => none) ⟨some "js", some "as", some "rs"⟩
      none 5).1 rfl,
   (C8_session_gate (fun _ => none) ⟨some "js", some "as", some "rs"⟩
      (some "Basic abc") 5).2.1 "Basic abc" rfl (by decide),
   (C8_session_gate (fun _ => none) ⟨some "js", some "as", some "rs"⟩
      (some "Bearer junk") 5).2.2.1 "Bearer junk" "jwt malformed" rfl
      (by decide) rfl,
   (C8_session_gate
      (fun s => if s = "good" then
        some ⟨⟨some "1", some "e", none⟩, "as", 0, 100⟩ else none)
      ⟨some "js", some "as", some "rs"⟩ (some "Bearer good") 5).2.2.2
      "Bearer good" ⟨some "1", some "e", none⟩ rfl (by decide) rfl⟩

/-- Claim C1 counterexample: at a concrete successful login (user id 1,
email a@x.com, environment where JWT_SECRET is jwtsec and
ACCESS_TOKEN_SECRET is accsec), the access token issued to the client is
signed with jwtsec and its payload has no sub field (it encodes email and
id), so it is NOT signed with the access secret nor shaped as sub, email;
accordingly SessionGate, verifying with the access secret, rejects this
freshly issued token with 403. -/
theorem C1_counterexample :
    (loginUserController (fun _ _ => true)
        ⟨some "jwtsec", some "accsec", some "refsec"⟩ "jwtsec"
        [⟨1, "a@x.com", "Name", some "H", "local", none⟩]
        ⟨.str "a@x.com", .str "secret1", .str "local"⟩ 0).token =
      some ⟨⟨none, some "a@x.com", some 1⟩, "jwtsec", 0, 3600⟩ ∧
    (verifyAccessToken
        (fun s => if s = "tk" then
          some ⟨⟨none, some "a@x.com", some 1⟩, "jwtsec", 0, 3600⟩ else none)
        ⟨some "jwtsec", some "accsec", some "refsec"⟩
        (some "Bearer tk") 5) =
      ⟨.resp 403 "Invalid or expired token", true⟩ := by
  decide

/-- Claim C1 as amended: the access token issued at login and registration
is signed with the JWT secret (config key JWT_SECRET, distinct from the
ACCESS_TOKEN_SECRET SessionGate verifies with) and encodes email and id
with no sub; only the access token minted by the refresh endpoint is
signed with the access secret, and it encodes sub with no email. -/
theorem C1_amended_token_provenance :
    (∀ bc secret db dto now u tok,
      userService.loginUser bc secret db dto now = .ok u tok →
      tok = ⟨⟨none, some u.email, some u.id⟩, secret, now, now + 3600⟩) ∧
    (∀ secret db dto newId now,
      (userService.createUser secret db dto newId now).1.2 =
        ⟨⟨none, some dto.email, some newId⟩, secret, now, now + 3600⟩) ∧
    (∀ env cookie now t,
      (refresh env cookie now).accessToken = some t →
      env.ACCESS_TOKEN_SECRET = some t.key ∧ t.payload.email = none ∧
        t.payload.id = none) := by
  refine ⟨?_, ?_, ?_⟩
  · intro bc secret db dto now u tok h
    unfold userService.loginUser at h
    dsimp only at h
    repeat' split at h
    all_goals simp_all [generateToken]
    obtain ⟨h1, h2⟩ := h
    subst h1
    exact h2.symm
  · intro secret db dto newId now
    simp [userService.createUser, generateToken]
  · intro env cookie now t h
    unfold refresh at h
    split at h
    · simp at h
    · split at h
      · simp at h
      · cases hacc : env.ACCESS_TOKEN_SECRET with
        | none => simp [jwtSign, hacc] at h
        | some s =>
          simp [jwtSign, hacc] at h
          subst h
          simp [hacc]

/-- Witness for C1_amended_token_provenance: the token of a concrete
successful login is exactly the JWT-secret-signed email-and-id token. -/
theorem C1_amended_token_provenance_witness :
    userService.loginUser (fun _ _ => true) "js"
        [⟨1, "a@x.com", "Name", some "H", "local", none⟩]
        ⟨"a@x.com", "secret1", "local"⟩ 0 =
      .ok ⟨1, "a@x.com", "Name", some "H", "local", none⟩
        ⟨⟨none, some "a@x.com", some 1⟩, "js", 0, 3600⟩ ∧
    (⟨⟨none, some "a@x.com", some 1⟩, "js", 0, 3600⟩ : Jwt) =
      ⟨⟨none, some "a@x.com", some 1⟩, "js", 0, 0 + 3600⟩ :=
  ⟨by decide,
   C1_amended_token_provenance.1 (fun _ _ => true) "js"
     [⟨1, "a@x.com", "Name", some "H", "local", none⟩]
     ⟨"a@x.com", "secret1", "local"⟩ 0
     ⟨1, "a@x.com", "Name", some "H", "local", none⟩
     ⟨⟨none, some "a@x.com", some 1⟩, "js", 0, 3600⟩ (by decide)⟩

/-- Claim C2 (code bug): a login whose body passes shape validation but
whose email matches no row, or whose password fails the bcrypt
comparison, is answered 500 (the service throws and the controller catch
maps every throw to the Server Error response), not the 401 the spec and
the controller's own dead 401 branch intend. Both failure modes are
evaluated at concrete inputs. -/
theorem C2_invalid_credentials_yield_500 :
    (loginUserController (fun _ _ => false)
        ⟨some "js", some "as", some "rs"⟩ "js" []
        ⟨.str "a@x.com", .str "pw", .str "local"⟩ 0).status = 500 ∧
    (loginUserController (fun _ _ => false)
        ⟨some "js", some "as", some "rs"⟩ "js"
        [⟨1, "a@x.com", "Name", some "H", "local", none⟩]
        ⟨.str "a@x.com", .str "wrongpw", .str "local"⟩ 0).status = 500 := by
  decide

/-- Claim C5 (code bug): at a concrete successful login the issued pair is
an access token with lifetime 3600 seconds and a refresh token with
lifetime 3600 seconds — equal, not strictly longer, lifetimes (the
controller passes expiresIn 1h for the refresh token just as generateToken
does for the access token, despite its comment promising a longer
expiry). -/
theorem C5_login_pair_equal_expiry :
    loginUserController (fun _ _ => true) ⟨some "js", some "as", some "rs"⟩
        "js" [⟨1, "a@x.com", "Name", some "H", "local", none⟩]
        ⟨.str "a@x.com", .str "secret1", .str "local"⟩ 0 =
      ⟨200, some ⟨⟨none, some "a@x.com", some 1⟩, "js", 0, 3600⟩,
        some ⟨⟨some "1", none, none⟩, "rs", 0, 3600⟩⟩ := by
  decide

/-- Claim C6 counterexample: with JWT_SECRET set but ACCESS_TOKEN_SECRET
and REFRESH_TOKEN_SECRET both absent, the only startup secret check in the
codebase succeeds — the process does not fail at startup. -/
theorem C6_counterexample_startup_succeeds :
    jwtModuleInit ⟨some "js", none, none⟩ = .ok "js" := rfl

/-- Claim C6 as amended: startup fails exactly when JWT_SECRET is falsy
(absent or empty); the absence of ACCESS_TOKEN_SECRET or of
REFRESH_TOKEN_SECRET is not detected at startup, but there is no silent
fallback either — with the access secret absent SessionGate never admits a
request, and with the refresh secret absent the refresh endpoint always
answers 401 with no token. -/
theorem C6_amended_startup_checks (env : ProcessEnv) :
    ((∃ m, jwtModuleInit env = .error m) ↔
      (env.JWT_SECRET = none ∨ env.JWT_SECRET = some "")) ∧
    (env.ACCESS_TOKEN_SECRET = none →
      ∀ decode hdr now p,
        (verifyAccessToken decode env hdr now).outcome ≠ .proceed p) ∧
    (env.REFRESH_TOKEN_SECRET = none →
      ∀ cookie now, (refresh env cookie now).status = 401 ∧
        (refresh env cookie now).accessToken = none) := by
  refine ⟨?_, ?_, ?_⟩
  · cases henv : env.JWT_SECRET with
    | none => simp [jwtModuleInit, henv]
    | some s =>
      by_cases hs : s = "" <;> simp [jwtModuleInit, henv, hs]
  · intro ha decode hdr now p
    cases hdr with
    | none => simp [verifyAccessToken]
    | some h =>
      unfold verifyAccessToken
      dsimp only
      by_cases hb : jsStartsWith h "Bearer " = true <;>
        simp [hb, jwtVerifyStr, ha]
  · intro hr cookie now
    cases cookie with
    | none => exact ⟨rfl, rfl⟩
    | some rt => simp [refresh, jwtVerify, hr]

/-- Witness for C6_amended_startup_checks at the empty environment:
startup fails, the gate rejects, and refresh answers 401. -/
theorem C6_amended_startup_checks_witness :
    (∃ m, jwtModuleInit ⟨none, none, none⟩ = .error m) ∧
    (verifyAccessToken (fun _ => none) ⟨none, none, none⟩
        (some "Bearer x") 0).outcome ≠ .proceed ⟨some "1", none, none⟩ ∧
    (refresh ⟨none, none, none⟩ none 0).status = 401 :=
  ⟨(C6_amended_startup_checks ⟨none, none, none⟩).1.mpr (Or.inl rfl),
   (C6_amended_startup_checks ⟨none, none, none⟩).2.1 rfl (fun _ => none)
     (some "Bearer x") 0 ⟨some "1", none, none⟩,
   ((C6_amended_startup_checks ⟨none, none, none⟩).2.2 rfl none 0).1⟩

/-- Claim C10: both DTO constructors normalize the submitted email by
trimming whitespace and lowercasing before anything else uses it, the
login lookup matches rows against exactly that normalized email, and
registration stores exactly that normalized email — so two submissions
differing only in letter case or surrounding whitespace refer to the same
credential. -/
theorem C10_email_normalized :
    (∀ b dto, CreateUserDTO.build b = .ok dto →
      ∀ e, b.email = .str e → dto.email = jsToLower (jsTrim e)) ∧
    (∀ b dto, LoginUserDTO.build b = .ok dto →
      ∀ e, b.email = .str e → dto.email = jsToLower (jsTrim e)) ∧
    (∀ bc secret db dto now u tok,
      userService.loginUser bc secret db dto now = .ok u tok →
      u.email = dto.email) ∧
    (∀ secret db dto newId now,
      ((userService.createUser secret db dto newId now).1.1).email =
        dto.email) := by
  refine ⟨?_, ?_, ?_, ?_⟩
  · intro b dto hok e he
    obtain ⟨be, bn, bp, bpr, bpid⟩ := b
    cases he
    unfold CreateUserDTO.build at hok
    dsimp only at hok
    repeat' split at hok
    all_goals cases hok
    all_goals rfl
  · intro b dto hok e he
    obtain ⟨be, bp, bpr⟩ := b
    cases he
    unfold LoginUserDTO.build at hok
    dsimp only at hok
    repeat' split at hok
    all_goals cases hok
    all_goals rfl
  · intro bc secret db dto now u tok h
    unfold userService.loginUser at h
    dsimp only at h
    split at h
    · rename_i u' heq
      have hmem : u' ∈ db.filter (fun v => v.email = dto.email) := by
        rw [heq]; exact List.mem_singleton_self u'
      have hpe : u'.email = dto.email := by
        have hf := List.mem_filter.mp hmem
        simpa using hf.2
      repeat' split at h
      all_goals simp_all
    · simp_all
    · simp_all
  · intro secret db dto newId now
    simp [userService.createUser]

/-- Witness for C10_email_normalized: a concrete login body whose email
has stray case and whitespace produces the normalized email. -/
theorem C10_email_normalized_witness :
    LoginUserDTO.build ⟨.str " A@X.Com ", .str "pw", .str "local"⟩ =
      .ok ⟨"a@x.com", "pw", "local"⟩ ∧
    (⟨"a@x.com", "pw", "local"⟩ : LoginUserDTO).email =
      jsToLower (jsTrim " A@X.Com ") :=
  ⟨rfl,
   C10_email_normalized.2.1 ⟨.str " A@X.Com ", .str "pw", .str "local"⟩
     ⟨"a@x.com", "pw", "local"⟩ rfl " A@X.Com " rfl⟩

end MediaHub
